import Mathlib

/-!
Verification of the NanoEdit edit-history and session-state core against its
natural-language specification.

The definitions below are a shallow embedding of the TypeScript source:

* `src/hooks/useImageHistory.ts` — the History Store (a React hook holding a
  list of image versions and a cursor);
* `src/components/Editor.tsx` — the Edit Orchestrator (two Editor components
  live in this file; the one using zoom/pan/adjustments/clear-session is
  called "canonical" below, the other "superseded", following the spec);
* `src/utils/imageOptimizer.ts` (recovered source) — the local image
  transforms `optimizeImage`, `compressImageForDownload`,
  `applyVisualAdjustments`.

JavaScript numbers used as list indices are modelled as `Int` (the cursor
holds the sentinel `-1` when the history is empty), out-of-range indexing
yields `Option.none` (JS `undefined`), and browser primitives that can fail
(localStorage.setItem, image decoding, fetch, the compression library) are
modelled as explicit outcome parameters, with `Except` for propagated
exceptions.
-/

namespace NanoEdit

/-- One immutable image version, `src/types.ts`:
`interface ImageState { dataUrl: string; mimeType: string }`. -/
structure ImageState where
  dataUrl : String
  mimeType : String
deriving DecidableEq

/-- The state held by the `useImageHistory` hook (`useImageHistory.ts` lines
5-6): the `history` array of versions and the `currentIndex` cursor.  The
cursor is a JS number: `-1` when the history is empty, an index otherwise. -/
structure HistoryState where
  history : List ImageState
  currentIndex : Int
deriving DecidableEq

/-- `Array.prototype.slice(0, e)` on a JS array: a negative end counts from
the end of the array, a nonnegative end is a take (clamped to the length). -/
def jsSliceEnd (l : List α) (e : Int) : List α :=
  if e < 0 then l.take ((l.length : Int) + e).toNat else l.take e.toNat

/-- JS indexing `l[i]` with a number index: `undefined` (here `none`) when the
index is negative or past the end. -/
def jsIndex (l : List α) (i : Int) : Option α :=
  if 0 ≤ i then l.get? i.toNat else none

/-- Hook initialisation (`useImageHistory.ts` lines 5-6):
`useState(initialState ? [initialState] : [])` and
`useState(initialState ? 0 : -1)`. -/
def initHistory (initialState : Option ImageState) : HistoryState :=
  match initialState with
  | some s => ⟨[s], 0⟩
  | none => ⟨[], -1⟩

/-- `canUndo = currentIndex > 0` (`useImageHistory.ts` line 8). -/
def canUndo (st : HistoryState) : Bool :=
  decide (0 < st.currentIndex)

/-- `canRedo = currentIndex < history.length - 1` (`useImageHistory.ts` line 9). -/
def canRedo (st : HistoryState) : Bool :=
  decide (st.currentIndex < (st.history.length : Int) - 1)

/-- `current = history[currentIndex]` (`useImageHistory.ts` line 10); JS gives
`undefined` when the index is out of range (in particular at the `-1`
sentinel). -/
def current (st : HistoryState) : Option ImageState :=
  jsIndex st.history st.currentIndex

/-- `original = history[0]` (`useImageHistory.ts` line 11). -/
def original (st : HistoryState) : Option ImageState :=
  jsIndex st.history 0

/-- `push` (`useImageHistory.ts` lines 13-18):
`newHistory = history.slice(0, currentIndex + 1); newHistory.push(state);
setHistory(newHistory); setCurrentIndex(newHistory.length - 1)`. -/
def push (st : HistoryState) (state : ImageState) : HistoryState :=
  let newHistory := jsSliceEnd st.history (st.currentIndex + 1) ++ [state]
  ⟨newHistory, (newHistory.length : Int) - 1⟩

/-- `undo` (`useImageHistory.ts` lines 20-24): decrement the cursor when
`canUndo` holds, otherwise do nothing. -/
def undo (st : HistoryState) : HistoryState :=
  if canUndo st then { st with currentIndex := st.currentIndex - 1 } else st

/-- `redo` (`useImageHistory.ts` lines 26-30): increment the cursor when
`canRedo` holds, otherwise do nothing. -/
def redo (st : HistoryState) : HistoryState :=
  if canRedo st then { st with currentIndex := st.currentIndex + 1 } else st

/-- `reset` (`useImageHistory.ts` lines 32-35): replace the whole history with
the single given version. -/
def reset (state : ImageState) : HistoryState :=
  ⟨[state], 0⟩

/-- One History Store mutation, for quantifying over operation sequences. -/
inductive HistOp where
  | push (s : ImageState)
  | undo
  | redo
deriving DecidableEq

/-- Apply one mutation to the hook state. -/
def applyOp (st : HistoryState) : HistOp → HistoryState
  | .push s => push st s
  | .undo => undo st
  | .redo => redo st

/-- Apply a sequence of mutations, oldest first. -/
def applyOps (st : HistoryState) (ops : List HistOp) : HistoryState :=
  ops.foldl applyOp st

/-- Claim C1: for every history with versions `v` and cursor `c`
(`0 ≤ c < length v`), `push newVersion` produces `v.take (c+1) ++ [newVersion]`
with the cursor on the appended version; and concretely, starting from
`[A,B,C]` with cursor 2, two undos reach cursor 0 with current `A`, and
pushing `D` then yields history `[A,D]`, cursor 1, with `canRedo` false. -/
theorem push_truncates_redo_tail (v : List ImageState) (c : Int) (s : ImageState)
    (hc0 : 0 ≤ c) (hc1 : c < (v.length : Int)) :
    (push ⟨v, c⟩ s).history = v.take (c.toNat + 1) ++ [s] ∧
    (push ⟨v, c⟩ s).currentIndex = ((push ⟨v, c⟩ s).history.length : Int) - 1 ∧
    ∀ A B C D : ImageState,
      undo (undo ⟨[A, B, C], 2⟩) = ⟨[A, B, C], 0⟩ ∧
      current (undo (undo ⟨[A, B, C], 2⟩)) = some A ∧
      push (undo (undo ⟨[A, B, C], 2⟩)) D = ⟨[A, D], 1⟩ ∧
      canRedo (push (undo (undo ⟨[A, B, C], 2⟩)) D) = false := by
  refine ⟨?_, rfl, ?_⟩
  · show jsSliceEnd v (c + 1) ++ [s] = v.take (c.toNat + 1) ++ [s]
    unfold jsSliceEnd
    rw [if_neg (by omega)]
    congr 2
    omega
  · intro A B C D
    exact ⟨rfl, rfl, rfl, rfl⟩

/-- Concrete instantiation of `push_truncates_redo_tail` at a one-element
history with cursor 0. -/
theorem push_truncates_redo_tail_witness :
    (push ⟨[ImageState.mk "data:image/png;base64,QQ" "image/png"], 0⟩
        (ImageState.mk "data:image/png;base64,Ug" "image/png")).history
      = [ImageState.mk "data:image/png;base64,QQ" "image/png"].take ((0 : Int).toNat + 1)
        ++ [ImageState.mk "data:image/png;base64,Ug" "image/png"] ∧
    undo (undo ⟨[ImageState.mk "a" "t", ImageState.mk "b" "t", ImageState.mk "c" "t"], 2⟩)
      = ⟨[ImageState.mk "a" "t", ImageState.mk "b" "t", ImageState.mk "c" "t"], 0⟩ :=
  ⟨(push_truncates_redo_tail _ 0 _ (by decide) (by decide)).1,
   ((push_truncates_redo_tail [ImageState.mk "x" "t"] 0 (ImageState.mk "" "")
      (by decide) (by decide)).2.2
      (ImageState.mk "a" "t") (ImageState.mk "b" "t") (ImageState.mk "c" "t")
      (ImageState.mk "d" "t")).1⟩

/-- Claim C3: after any sequence of push/undo/redo operations from any
initialised history, `canUndo` is exactly `cursor > 0` and `canRedo` is
exactly `cursor < length - 1`; `undo` at cursor 0 and `redo` at cursor
`length - 1` leave the state unchanged (and, being total functions, never
raise an error). -/
theorem history_invariants (init : Option ImageState) (ops : List HistOp) :
    canUndo (applyOps (initHistory init) ops)
        = decide (0 < (applyOps (initHistory init) ops).currentIndex) ∧
    canRedo (applyOps (initHistory init) ops)
        = decide ((applyOps (initHistory init) ops).currentIndex
            < ((applyOps (initHistory init) ops).history.length : Int) - 1) ∧
    ((applyOps (initHistory init) ops).currentIndex = 0 →
      undo (applyOps (initHistory init) ops) = applyOps (initHistory init) ops) ∧
    ((applyOps (initHistory init) ops).currentIndex
        = ((applyOps (initHistory init) ops).history.length : Int) - 1 →
      redo (applyOps (initHistory init) ops) = applyOps (initHistory init) ops) := by
  refine ⟨rfl, rfl, ?_, ?_⟩
  · intro h
    unfold undo
    rw [if_neg]
    simp [canUndo, h]
  · intro h
    unfold redo
    rw [if_neg]
    simp [canRedo, h]

/-- Concrete instantiation of `history_invariants`: boundary undo and redo are
no-ops on the two-element history `[a, b]` visited at each end. -/
theorem history_invariants_witness :
    undo (applyOps (initHistory (some (ImageState.mk "a" "t")))
        [HistOp.push (ImageState.mk "b" "t"), HistOp.undo])
      = applyOps (initHistory (some (ImageState.mk "a" "t")))
        [HistOp.push (ImageState.mk "b" "t"), HistOp.undo] ∧
    redo (applyOps (initHistory (some (ImageState.mk "a" "t")))
        [HistOp.push (ImageState.mk "b" "t")])
      = applyOps (initHistory (some (ImageState.mk "a" "t")))
        [HistOp.push (ImageState.mk "b" "t")] ∧
    canUndo (applyOps (initHistory (some (ImageState.mk "a" "t")))
        [HistOp.push (ImageState.mk "b" "t")])
      = decide (0 < (applyOps (initHistory (some (ImageState.mk "a" "t")))
          [HistOp.push (ImageState.mk "b" "t")]).currentIndex) :=
  ⟨(history_invariants (some (ImageState.mk "a" "t"))
      [HistOp.push (ImageState.mk "b" "t"), HistOp.undo]).2.2.1 (by decide),
   (history_invariants (some (ImageState.mk "a" "t"))
      [HistOp.push (ImageState.mk "b" "t")]).2.2.2 (by decide),
   (history_invariants (some (ImageState.mk "a" "t"))
      [HistOp.push (ImageState.mk "b" "t")]).1⟩

/-- Claim C10: every History Store query and operation is total on the empty
history `⟨[], -1⟩` that `useImageHistory(null)` starts in: `current` and
`original` are absent, `canUndo` and `canRedo` are false, and `push s`
(slicing with end index `-1 + 1 = 0`) yields the valid one-element history
`[s]` with cursor 0. -/
theorem empty_history_total (s : ImageState) :
    initHistory none = ⟨[], -1⟩ ∧
    current (initHistory none) = none ∧
    original (initHistory none) = none ∧
    canUndo (initHistory none) = false ∧
    canRedo (initHistory none) = false ∧
    push (initHistory none) s = ⟨[s], 0⟩ ∧
    current (push (initHistory none) s) = some s ∧
    0 ≤ (push (initHistory none) s).currentIndex ∧
    (push (initHistory none) s).currentIndex
      < ((push (initHistory none) s).history.length : Int) :=
  ⟨rfl, rfl, rfl, rfl, rfl, rfl, rfl, by simp [push, initHistory, jsSliceEnd],
   by simp [push, initHistory, jsSliceEnd]⟩

/-!
## Edit Orchestrator: the submit lifecycle of `Editor.tsx`

`handleSubmit` (canonical Editor, `Editor.tsx` lines 863-888; the superseded
`handlePromptSubmit`, lines 115-138, is structurally identical) is an async
closure created during a React render.  It captures that render's `current`,
`prompt` and `push` bindings; `push` is memoized over `[history, currentIndex]`
(`useImageHistory.ts` line 18), so the push executed when the awaited AI call
resolves computes from the history and cursor captured when the submit
happened, and `setHistory`/`setCurrentIndex` then overwrite whatever state the
component holds at completion time.  The machine below makes that capture
explicit: `inflightPush` records the hook state the awaiting handler's `push`
closure holds.  Cursor movement while a request is in flight is reachable in
the source: the superseded Editor's undo/redo buttons are not disabled while
loading (lines 431-432), and the canonical Editor's drop-upload path calls
`reset` without checking `isLoading` (lines 843-851, 796-834).  Storage writes
performed on these paths are modelled separately (see the session-persistence
section).
-/

/-- Outcome of the awaited `editImageWithNanoBanana` call: it resolves with a
data URL or rejects with an `Error` carrying a human-readable message
(`geminiService.ts` lines 12-78 always throw `new Error(userFriendlyError)`). -/
inductive AIOutcome where
  | success (dataUrl : String)
  | failure (msg : String)
deriving DecidableEq

/-- Index of the first position in `hay` at which `need` occurs, if any. -/
def listIndexOf? (need : List Char) : List Char → Option Nat
  | [] => if need.isPrefixOf ([] : List Char) then some 0 else none
  | c :: tl =>
      if need.isPrefixOf (c :: tl) then some 0
      else (listIndexOf? need tl).map (· + 1)

/-- Index of the last position in `hay` at which `need` occurs, if any. -/
def listLastIndexOf? (need : List Char) : List Char → Option Nat
  | [] => if need.isPrefixOf ([] : List Char) then some 0 else none
  | c :: tl =>
      match listLastIndexOf? need tl with
      | some j => some (j + 1)
      | none => if need.isPrefixOf (c :: tl) then some 0 else none

/-- `newImageDataUrl.match(/data:(.*);base64,/)?.[1] || 'image/png'`
(`Editor.tsx` line 875).  The regex match starts at the first `data:`
occurrence and the greedy group runs to the last following `;base64,`; with no
match, or an empty (falsy) group, the fallback is `image/png`.  (Data URLs in
this app contain no newline, so the JS `.` restriction does not matter.) -/
def extractMimeType (s : String) : String :=
  match listIndexOf? "data:".data s.data with
  | none => "image/png"
  | some i =>
    let afterData := s.data.drop (i + 5)
    match listLastIndexOf? ";base64,".data afterData with
    | none => "image/png"
    | some j =>
      let captured := String.mk (afterData.take j)
      if captured = "" then "image/png" else captured

/-- The Editor state components the submit lifecycle touches (`Editor.tsx`
lines 714-718): the hook state, the prompt field, the loading flag and the
single error slot, plus the hook state captured by an awaiting handler's
`push` closure (none when no edit is in flight). -/
structure OrchestratorState where
  hist : HistoryState
  prompt : String
  isLoading : Bool
  error : Option String
  inflightPush : Option HistoryState
deriving DecidableEq

/-- Events of the submit lifecycle: the user submits the prompt form, presses
the undo/redo buttons, or the in-flight AI call completes. -/
inductive OrchestratorEvent where
  | submit
  | pressUndo
  | pressRedo
  | complete (outcome : AIOutcome)
deriving DecidableEq

/-- One event step of the canonical `handleSubmit` lifecycle
(`Editor.tsx` lines 863-888):

* `submit`: `if (!current || !prompt || isLoading) return;` then
  `setIsLoading(true); setError(null);` and the closure capture of the current
  hook state by the awaited continuation;
* `pressUndo`/`pressRedo`: the hook's `undo`/`redo`;
* `complete (success url)`: the captured `push` runs with the captured hook
  state on `{ dataUrl: url, mimeType: extractMimeType url }`, then
  `setPrompt('')` and (finally) `setIsLoading(false)`;
* `complete (failure msg)`: `setError(msg)` (the thrown value is always an
  `Error`, so `err.message` is the collaborator's message), history untouched,
  then `setIsLoading(false)`. -/
def stepEvent (st : OrchestratorState) : OrchestratorEvent → OrchestratorState
  | .submit =>
      if (current st.hist).isNone || decide (st.prompt = "") || st.isLoading then st
      else { st with isLoading := true, error := none, inflightPush := some st.hist }
  | .pressUndo => { st with hist := undo st.hist }
  | .pressRedo => { st with hist := redo st.hist }
  | .complete outcome =>
      match st.inflightPush, outcome with
      | none, _ => st
      | some captured, .success url =>
          { st with hist := push captured ⟨url, extractMimeType url⟩,
                    prompt := "", isLoading := false, inflightPush := none }
      | some _, .failure msg =>
          { st with error := some msg, isLoading := false, inflightPush := none }

/-- Run a sequence of lifecycle events, oldest first. -/
def runEvents (st : OrchestratorState) (evts : List OrchestratorEvent) : OrchestratorState :=
  evts.foldl stepEvent st

/-- Cursor movements performed while the request is in flight. -/
inductive NavEvent where
  | navUndo
  | navRedo
deriving DecidableEq

/-- View a cursor movement as a lifecycle event. -/
def navToEvent : NavEvent → OrchestratorEvent
  | .navUndo => .pressUndo
  | .navRedo => .pressRedo

/-- Undo/redo presses change only the hook state: the prompt, loading flag,
error slot and the in-flight closure capture are untouched. -/
theorem runNav_preserves (nav : List NavEvent) (s : OrchestratorState) :
    (runEvents s (nav.map navToEvent)).inflightPush = s.inflightPush ∧
    (runEvents s (nav.map navToEvent)).prompt = s.prompt ∧
    (runEvents s (nav.map navToEvent)).isLoading = s.isLoading ∧
    (runEvents s (nav.map navToEvent)).error = s.error := by
  induction nav generalizing s with
  | nil => exact ⟨rfl, rfl, rfl, rfl⟩
  | cons n ns ih =>
    have hstep : runEvents s ((n :: ns).map navToEvent)
        = runEvents (stepEvent s (navToEvent n)) (ns.map navToEvent) := rfl
    rw [hstep]
    have := ih (stepEvent s (navToEvent n))
    cases n <;> simpa [stepEvent, navToEvent] using this

def imgA : ImageState := ⟨"data:image/png;base64,AAAA", "image/png"⟩

def imgB : ImageState := ⟨"data:image/png;base64,BBBB", "image/png"⟩

/-- The image the AI edit resolves with in the concrete in-flight scenario. -/
def imgC : ImageState := ⟨"data:image/jpeg;base64,CCCC", "image/jpeg"⟩

/-- Claim C2 fails on the code: starting from history `[A,B]` with cursor 1,
submitting, undoing while the request is in flight (cursor 0), and then
completing successfully with `C` appends after the cursor captured when the
request was issued, yielding `[A,B,C]` with cursor 2 — not the
`[A,C]`/cursor 1 the claim's post-undo-cursor push would produce. -/
theorem inflight_push_uses_issue_time_cursor :
    (runEvents ⟨⟨[imgA, imgB], 1⟩, "add a hat", false, none, none⟩
        [.submit, .pressUndo, .complete (.success "data:image/jpeg;base64,CCCC")]).hist
      = ⟨[imgA, imgB, imgC], 2⟩ ∧
    push (undo ⟨[imgA, imgB], 1⟩) imgC = ⟨[imgA, imgC], 1⟩ ∧
    (⟨[imgA, imgB, imgC], 2⟩ : HistoryState) ≠ ⟨[imgA, imgC], 1⟩ := by
  refine ⟨by decide, by decide, by decide⟩

/-- Claim C2, amended to what the code does: whatever cursor movements happen
while the request is in flight, the push performed at successful completion
computes from the hook state captured when the request was issued — it
truncates from, and appends after, the pre-request cursor, overwriting the
interim movements. -/
theorem inflight_push_captures_submit_state (s0 : OrchestratorState)
    (nav : List NavEvent) (url : String)
    (hcur : current s0.hist ≠ none) (hp : s0.prompt ≠ "") (hl : s0.isLoading = false) :
    (runEvents s0 ([.submit] ++ nav.map navToEvent
        ++ [.complete (.success url)])).hist
      = push s0.hist ⟨url, extractMimeType url⟩ := by
  have hsub : stepEvent s0 .submit
      = { s0 with isLoading := true, error := none, inflightPush := some s0.hist } := by
    unfold stepEvent
    rw [if_neg]
    simp only [Bool.or_eq_true, Option.isNone_iff_eq_none, decide_eq_true_eq]
    push_neg
    exact ⟨⟨hcur, hp⟩, by simp [hl]⟩
  have hrun : runEvents s0 ([.submit] ++ nav.map navToEvent ++ [.complete (.success url)])
      = stepEvent (runEvents (stepEvent s0 .submit) (nav.map navToEvent))
          (.complete (.success url)) := by
    simp [runEvents, List.foldl_append]
  rw [hrun, hsub]
  have hinf := (runNav_preserves nav
      { s0 with isLoading := true, error := none, inflightPush := some s0.hist }).1
  set s2 := runEvents
      { s0 with isLoading := true, error := none, inflightPush := some s0.hist }
      (nav.map navToEvent) with hs2
  show (stepEvent s2 (.complete (.success url))).hist = _
  unfold stepEvent
  rw [hinf]

/-- Concrete instantiation of `inflight_push_captures_submit_state`: from
`[A,B]` at cursor 1, an undo during the in-flight edit does not change what
the completion pushes. -/
theorem inflight_push_captures_submit_state_witness :
    (runEvents ⟨⟨[imgA, imgB], 1⟩, "add a hat", false, none, none⟩
        ([.submit] ++ [NavEvent.navUndo].map navToEvent
          ++ [.complete (.success "data:image/jpeg;base64,CCCC")])).hist
      = push (⟨[imgA, imgB], 1⟩ : HistoryState)
          ⟨"data:image/jpeg;base64,CCCC",
            extractMimeType "data:image/jpeg;base64,CCCC"⟩ :=
  inflight_push_captures_submit_state
    ⟨⟨[imgA, imgB], 1⟩, "add a hat", false, none, none⟩ [NavEvent.navUndo]
    "data:image/jpeg;base64,CCCC" (by decide) (by decide) rfl

/-- Claim C6: submitting is a no-op unless a current image exists, the prompt
is non-empty and no edit is in flight; on AI success the new state is pushed
and the prompt cleared; on AI failure the error slot holds the collaborator's
message and the history (versions and cursor) is exactly as before. -/
theorem submit_gating_and_outcomes (s0 : OrchestratorState) (url msg : String) :
    (current s0.hist = none ∨ s0.prompt = "" ∨ s0.isLoading = true →
      stepEvent s0 .submit = s0) ∧
    (current s0.hist ≠ none → s0.prompt ≠ "" → s0.isLoading = false →
      (runEvents s0 [.submit, .complete (.success url)]).hist
          = push s0.hist ⟨url, extractMimeType url⟩ ∧
      (runEvents s0 [.submit, .complete (.success url)]).prompt = "" ∧
      (runEvents s0 [.submit, .complete (.success url)]).isLoading = false) ∧
    (current s0.hist ≠ none → s0.prompt ≠ "" → s0.isLoading = false →
      (runEvents s0 [.submit, .complete (.failure msg)]).hist = s0.hist ∧
      (runEvents s0 [.submit, .complete (.failure msg)]).error = some msg ∧
      (runEvents s0 [.submit, .complete (.failure msg)]).prompt = s0.prompt ∧
      (runEvents s0 [.submit, .complete (.failure msg)]).isLoading = false) := by
  have hgate : ∀ hcur : current s0.hist ≠ none, ∀ hp : s0.prompt ≠ "",
      s0.isLoading = false →
      stepEvent s0 .submit
        = { s0 with isLoading := true, error := none, inflightPush := some s0.hist } := by
    intro hcur hp hl
    unfold stepEvent
    rw [if_neg]
    simp only [Bool.or_eq_true, Option.isNone_iff_eq_none, decide_eq_true_eq]
    push_neg
    exact ⟨⟨hcur, hp⟩, by simp [hl]⟩
  refine ⟨?_, ?_, ?_⟩
  · intro h
    unfold stepEvent
    rw [if_pos]
    rcases h with h | h | h
    · simp [h]
    · simp [h]
    · simp [h]
  · intro hcur hp hl
    have : runEvents s0 [.submit, .complete (.success url)]
        = stepEvent (stepEvent s0 .submit) (.complete (.success url)) := rfl
    rw [this, hgate hcur hp hl]
    exact ⟨rfl, rfl, rfl⟩
  · intro hcur hp hl
    have : runEvents s0 [.submit, .complete (.failure msg)]
        = stepEvent (stepEvent s0 .submit) (.complete (.failure msg)) := rfl
    rw [this, hgate hcur hp hl]
    exact ⟨rfl, rfl, rfl, rfl⟩

/-- Concrete instantiation of `submit_gating_and_outcomes`: an empty prompt
makes submit a no-op, and a failing AI call sets the error slot and leaves the
one-element history untouched. -/
theorem submit_gating_and_outcomes_witness :
    stepEvent ⟨⟨[imgA], 0⟩, "", false, none, none⟩ .submit
      = ⟨⟨[imgA], 0⟩, "", false, none, none⟩ ∧
    (runEvents ⟨⟨[imgA], 0⟩, "add a hat", false, none, none⟩
        [.submit, .complete (.failure "Your request could not be processed due to safety policies. Please modify your prompt and try again.")]).hist
      = ⟨[imgA], 0⟩ ∧
    (runEvents ⟨⟨[imgA], 0⟩, "add a hat", false, none, none⟩
        [.submit, .complete (.success "data:image/png;base64,BBBB")]).prompt = "" :=
  ⟨(submit_gating_and_outcomes ⟨⟨[imgA], 0⟩, "", false, none, none⟩ "" "").1
      (Or.inr (Or.inl rfl)),
   ((submit_gating_and_outcomes ⟨⟨[imgA], 0⟩, "add a hat", false, none, none⟩ ""
        "Your request could not be processed due to safety policies. Please modify your prompt and try again.").2.2
      (by decide) (by decide) rfl).1,
   ((submit_gating_and_outcomes ⟨⟨[imgA], 0⟩, "add a hat", false, none, none⟩
        "data:image/png;base64,BBBB" "").2.1
      (by decide) (by decide) rfl).2.1⟩

/-!
## The hook's returned object and the canonical Editor's `clear`

`useImageHistory.ts` line 37 returns
`{ current, original, push, undo, redo, canUndo, canRedo, reset }`.
The canonical Editor (`Editor.tsx` line 714) destructures
`{ current, original, push, undo, redo, canUndo, canRedo, reset, clear }`
from it and `handleClearSession` (lines 906-920) calls `clear()`.  In JS,
destructuring an absent member yields `undefined`, and calling `undefined`
throws a `TypeError`.
-/

/-- A member of the object `useImageHistory` returns: a state-indexed value,
a state-indexed flag, a zero-argument state-transforming operation, or a
one-argument (ImageState) state-transforming operation. -/
inductive HookMember where
  | query (q : HistoryState → Option ImageState)
  | flag (b : HistoryState → Bool)
  | op0 (f : HistoryState → HistoryState)
  | op1 (f : HistoryState → ImageState → HistoryState)

/-- The object returned by `useImageHistory` (`useImageHistory.ts` line 37),
member by member. -/
def useImageHistoryReturn : List (String × HookMember) :=
  [("current", .query current),
   ("original", .query original),
   ("push", .op1 push),
   ("undo", .op0 undo),
   ("redo", .op0 redo),
   ("canUndo", .flag canUndo),
   ("canRedo", .flag canRedo),
   ("reset", .op1 (fun _ s => reset s))]

/-- The member names the canonical Editor destructures from the hook's return
value (`Editor.tsx` line 714). -/
def canonicalEditorDestructure : List String :=
  ["current", "original", "push", "undo", "redo", "canUndo", "canRedo",
   "reset", "clear"]

/-- JS member access on the hook's returned object. -/
def jsGetMember (name : String) : Option HookMember :=
  (useImageHistoryReturn.find? (fun p => p.1 = name)).map (fun p => p.2)

/-- Result of a JS call through a destructured member: a new hook state, or a
thrown `TypeError` when the member is absent (`undefined`) or not a
zero-argument function. -/
inductive JSCall where
  | ok (st : HistoryState)
  | typeError (msg : String)

/-- `handleClearSession` (`Editor.tsx` lines 906-920) invoking `clear()`: the
call goes through the member destructured from the hook's returned object. -/
def callClear (st : HistoryState) : JSCall :=
  match jsGetMember "clear" with
  | some (.op0 f) => .ok (f st)
  | some _ => .typeError "clear is not a function"
  | none => .typeError "clear is not a function"

/-- Claim C5 names a History Store operation the code does not provide: the
canonical Editor destructures `clear` and `handleClearSession` calls it, but
the hook's returned object has no `clear` member, so the call throws a
`TypeError` instead of emptying the history. -/
theorem clear_is_missing_from_hook (st : HistoryState) :
    callClear st = .typeError "clear is not a function" ∧
    "clear" ∈ canonicalEditorDestructure ∧
    "clear" ∉ useImageHistoryReturn.map (fun p => p.1) :=
  ⟨rfl, by decide, by decide⟩

/-!
## Session Persistence

Two independent localStorage keys hold the JSON-serialised current image and
the plain prompt string (canonical Editor: `nanoedit-saved-image` /
`nanoedit-saved-prompt`; superseded Editor: `nanoedit-session-image` /
`nanoedit-session-prompt`).  The load effects read the image key, JSON-parse
it, and feed the result to `reset`; the save sites call
`localStorage.setItem`.  The models below keep the stored image entry
abstract at the JSON level: a stored string either fails to parse (throws) or
parses to an object whose two expected fields are each a string or absent
(standing for missing or non-string, which the superseded validation treats
alike).
-/

/-- A JS field value as far as the load validation observes it: a string, or
`undefined` (missing / non-string). -/
inductive JSVal where
  | str (s : String)
  | undef
deriving DecidableEq

/-- `true` exactly for string fields: `typeof v === 'string'`. -/
def JSVal.isStr : JSVal → Bool
  | .str _ => true
  | .undef => false

/-- The object a stored image entry parses to. -/
structure RawImage where
  dataUrl : JSVal
  mimeType : JSVal
deriving DecidableEq

/-- A present stored image entry: either `JSON.parse` throws on it, or it
parses to an object. -/
inductive StoredEntry where
  | malformed
  | parsed (raw : RawImage)
deriving DecidableEq

/-- What a load effect did: the entry it fed to `reset` (none: the history was
left untouched, i.e. empty on startup), and whether it removed both storage
keys. -/
structure LoadOutcome where
  accepted : Option RawImage
  keysDeleted : Bool
deriving DecidableEq

/-- The canonical Editor's load effect (`Editor.tsx` lines 746-764): if the
image key is present, `JSON.parse` it and call `reset(savedImage)` with no
field validation; only a thrown parse error reaches the `catch` that removes
both keys. -/
def canonicalLoadImage : Option StoredEntry → LoadOutcome
  | none => ⟨none, false⟩
  | some .malformed => ⟨none, true⟩
  | some (.parsed raw) => ⟨some raw, false⟩

/-- The superseded Editor's load effect (`Editor.tsx` lines 86-105): same
shape, but the parsed entry is accepted only if
`typeof savedImage.dataUrl === 'string' && typeof savedImage.mimeType === 'string'`;
an entry failing that check is silently skipped (no `reset`, no key
removal), and only a thrown parse error removes both keys. -/
def supersededLoadImage : Option StoredEntry → LoadOutcome
  | none => ⟨none, false⟩
  | some .malformed => ⟨none, true⟩
  | some (.parsed raw) =>
      if raw.dataUrl.isStr && raw.mimeType.isStr then ⟨some raw, false⟩
      else ⟨none, false⟩

/-- A stored image entry that parses but is missing its `mimeType` field. -/
def missingMimeEntry : StoredEntry :=
  .parsed ⟨.str "data:image/png;base64,AAAA", .undef⟩

/-- Claim C4 fails on the code: for a stored image entry missing `mimeType`,
the canonical load effect accepts it (resets it into the history) and deletes
nothing, and the superseded load effect, though it rejects the entry, also
deletes nothing — the claim requires the entry to be rejected with both keys
deleted. -/
theorem load_validation_counterexample :
    (canonicalLoadImage (some missingMimeEntry)).accepted ≠ none ∧
    (canonicalLoadImage (some missingMimeEntry)).keysDeleted = false ∧
    (supersededLoadImage (some missingMimeEntry)).accepted = none ∧
    (supersededLoadImage (some missingMimeEntry)).keysDeleted = false := by
  refine ⟨by decide, rfl, rfl, rfl⟩

/-- Claim C4, amended to what the code does: the canonical load effect accepts
any entry that parses, without field validation, and deletes the keys only on
a parse error; the superseded load effect validates the two string fields,
silently skips an entry failing validation without deleting the keys, and
likewise deletes the keys only on a parse error. -/
theorem load_validation_behavior (raw : RawImage) (d m : String) :
    canonicalLoadImage (some (.parsed raw)) = ⟨some raw, false⟩ ∧
    canonicalLoadImage (some .malformed) = ⟨none, true⟩ ∧
    canonicalLoadImage none = ⟨none, false⟩ ∧
    supersededLoadImage (some (.parsed ⟨.str d, .str m⟩)) = ⟨some ⟨.str d, .str m⟩, false⟩ ∧
    supersededLoadImage (some (.parsed ⟨.str d, .undef⟩)) = ⟨none, false⟩ ∧
    supersededLoadImage (some (.parsed ⟨.undef, raw.mimeType⟩)) = ⟨none, false⟩ ∧
    supersededLoadImage (some .malformed) = ⟨none, true⟩ := by
  refine ⟨rfl, rfl, rfl, rfl, rfl, ?_, rfl⟩
  cases h : raw.mimeType <;> rfl

/-- Outcome of one `localStorage.setItem` call: it returns, or throws (e.g. a
quota error). -/
inductive StorageWrite where
  | ok
  | quotaExceeded (msg : String)
deriving DecidableEq

/-- A `localStorage.setItem(key, value)` call with the given outcome: the
value written, or the thrown error. -/
def setItemOp (write : StorageWrite) (value : String) : Except String String :=
  match write with
  | .ok => .ok value
  | .quotaExceeded m => .error m

/-- `JSON.stringify` of an `ImageState` (fields in declaration order; data
URLs and MIME types contain no characters needing JSON escapes). -/
def stringifyImage (img : ImageState) : String :=
  "\x7b\"dataUrl\":\"" ++ img.dataUrl ++ "\",\"mimeType\":\"" ++ img.mimeType ++ "\"\x7d"

/-- The canonical Editor's auto-save effect (`Editor.tsx` lines 767-771):
`if (current) localStorage.setItem('nanoedit-saved-image', JSON.stringify(current))`
with no try/catch — the effect's result is whatever `setItem` does.  Returns
the value written under the key, if any. -/
def autoSaveImageEffect (cur : Option ImageState) (write : StorageWrite) :
    Except String (Option String) :=
  match cur with
  | none => .ok none
  | some c => (setItemOp write (stringifyImage c)).map some

/-- `handlePromptChange` (`Editor.tsx` lines 890-894): `setPrompt(newPrompt)`
then `localStorage.setItem('nanoedit-saved-prompt', newPrompt)` with no
try/catch.  Returns the new prompt value on success. -/
def handlePromptChangeEffect (newPrompt : String) (write : StorageWrite) :
    Except String String :=
  (setItemOp write newPrompt).map (fun _ => newPrompt)

/-- Claim C7 fails on the code: with a current image present and the storage
write throwing a quota error, both save sites propagate the exception to
their caller (nothing in them catches it). -/
theorem save_propagates_counterexample :
    autoSaveImageEffect (some ⟨"data:image/png;base64,AAAA", "image/png"⟩)
        (.quotaExceeded "QuotaExceededError") = .error "QuotaExceededError" ∧
    handlePromptChangeEffect "make it pop" (.quotaExceeded "QuotaExceededError")
      = .error "QuotaExceededError" :=
  ⟨rfl, rfl⟩

/-- Claim C7, amended to what the code does: the session-persistence saves are
not guarded; a successful write stores the serialised value, and a storage
failure during either save propagates uncaught to the caller (only the load
effect has a try/catch). -/
theorem save_behavior (c : ImageState) (p m : String) :
    autoSaveImageEffect (some c) (.quotaExceeded m) = .error m ∧
    autoSaveImageEffect (some c) .ok = .ok (some (stringifyImage c)) ∧
    autoSaveImageEffect none (.quotaExceeded m) = .ok none ∧
    handlePromptChangeEffect p (.quotaExceeded m) = .error m ∧
    handlePromptChangeEffect p .ok = .ok p :=
  ⟨rfl, rfl, rfl, rfl, rfl⟩

/-!
## Local image transforms (`src/utils/imageOptimizer.ts`, recovered source)

The browser-image-compression library, `fetch`-based data-URL decoding and
canvas rendering are external black boxes; each is passed in as an explicit
outcome/oracle parameter.  `Except.error` models a rejected promise reaching
the caller.
-/

/-- A browser `File`: name, contents and MIME type. -/
structure JSFile where
  name : String
  content : String
  fileType : String
deriving DecidableEq

/-- The options record handed to `imageCompression`. -/
structure CompressionOptions where
  maxSizeMB : ℚ
  maxWidthOrHeight : Option Nat
  useWebWorker : Bool
  initialQuality : ℚ
deriving DecidableEq

/-- The upload-optimization options (`imageOptimizer.ts` lines 10-15):
`maxSizeMB: 1, maxWidthOrHeight: 1920, useWebWorker: true, initialQuality: 0.8`. -/
def optimizeOptions : CompressionOptions :=
  ⟨1, some 1920, true, 4/5⟩

/-- `optimizeImage` (`imageOptimizer.ts` lines 9-26): run `imageCompression`
on the file inside a try/catch; return the compressed file, or the original
file unchanged if compression fails for any reason.  The library call is the
`imageCompression` oracle argument. -/
def optimizeImage (imageCompression : JSFile → CompressionOptions → Except String JSFile)
    (file : JSFile) : JSFile :=
  match imageCompression file optimizeOptions with
  | .ok compressedFile => compressedFile
  | .error _ => file

/-- `src/types.ts`: `type OutputQuality = 'low' | 'medium' | 'high'`. -/
inductive OutputQuality where
  | low
  | medium
  | high
deriving DecidableEq

/-- The per-tier `(maxSizeMB, initialQuality)` pairs
(`imageOptimizer.ts` lines 48-52):
low `(0.5, 0.6)`, medium `(1, 0.8)`, high `(5, 0.95)`. -/
def qualityOptions : OutputQuality → ℚ × ℚ
  | .low => (1/2, 3/5)
  | .medium => (1, 4/5)
  | .high => (5, 19/20)

/-- The options record built for a download compression
(`imageOptimizer.ts` lines 54-58): the tier's pair, `useWebWorker: true`, and
no `maxWidthOrHeight` (to preserve the original dimensions). -/
def downloadOptions (quality : OutputQuality) : CompressionOptions :=
  ⟨(qualityOptions quality).1, none, true, (qualityOptions quality).2⟩

/-- `mimeType.split('/')[1] || 'png'` (`imageOptimizer.ts` line 60): the part
after the first slash, with `png` as the fallback for a missing or empty
part. -/
def fileExt (mimeType : String) : String :=
  match mimeType.data.splitOn '/' with
  | _ :: ext :: _ => if ext.isEmpty then "png" else String.mk ext
  | _ => "png"

/-- `compressImageForDownload` (`imageOptimizer.ts` lines 47-72).  The
`dataURLtoFile` call (fetch the data URL, wrap the blob in a `File`) happens
BEFORE the try block, so its rejection propagates; inside the try,
`imageCompression` and `getDataUrlFromFile` failures are caught and the
original data URL is returned unchanged. -/
def compressImageForDownload
    (dataURLtoFile : String → String → Except String JSFile)
    (imageCompression : JSFile → CompressionOptions → Except String JSFile)
    (getDataUrlFromFile : JSFile → Except String String)
    (dataUrl mimeType : String) (quality : OutputQuality) : Except String String :=
  match dataURLtoFile dataUrl ("source." ++ fileExt mimeType) with
  | .error e => .error e
  | .ok file =>
      match imageCompression file (downloadOptions quality) with
      | .error _ => .ok dataUrl
      | .ok compressedFile =>
          match getDataUrlFromFile compressedFile with
          | .error _ => .ok dataUrl
          | .ok compressedDataUrl => .ok compressedDataUrl

/-- Claim C8 fails on the code: when converting the input data URL to a file
rejects (it runs before the try/catch), `compressImageForDownload` propagates
that error to the caller instead of returning the input unchanged. -/
theorem compress_download_counterexample :
    compressImageForDownload (fun _ _ => .error "TypeError: Failed to fetch")
        (fun f _ => .ok f) (fun f => .ok f.content)
        "not-a-data-url" "image/png" .low
      = .error "TypeError: Failed to fetch" ∧
    (Except.error "TypeError: Failed to fetch" : Except String String)
      ≠ .ok "not-a-data-url" := by
  exact ⟨rfl, by simp⟩

/-- Claim C8, amended to what the code does: `optimizeImage` never throws (its
result type is a plain file) and returns the input file unchanged whenever the
compression library fails; `compressImageForDownload` returns the input data
URL unchanged when the guarded compression or re-encoding step fails, but a
failure of the data-URL-to-file conversion occurs before the guard and
propagates to the caller. -/
theorem transform_fallback_behavior
    (comp : JSFile → CompressionOptions → Except String JSFile)
    (toFile : String → String → Except String JSFile)
    (getUrl : JSFile → Except String String)
    (file fl : JSFile) (dataUrl mimeType e : String) (q : OutputQuality) :
    (comp file optimizeOptions = .error e → optimizeImage comp file = file) ∧
    (comp file optimizeOptions = .ok fl → optimizeImage comp file = fl) ∧
    (toFile dataUrl ("source." ++ fileExt mimeType) = .error e →
      compressImageForDownload toFile comp getUrl dataUrl mimeType q = .error e) ∧
    (toFile dataUrl ("source." ++ fileExt mimeType) = .ok fl →
      comp fl (downloadOptions q) = .error e →
      compressImageForDownload toFile comp getUrl dataUrl mimeType q = .ok dataUrl) ∧
    (toFile dataUrl ("source." ++ fileExt mimeType) = .ok fl →
      comp fl (downloadOptions q) = .ok file →
      getUrl file = .error e →
      compressImageForDownload toFile comp getUrl dataUrl mimeType q = .ok dataUrl) := by
  refine ⟨?_, ?_, ?_, ?_, ?_⟩
  · intro h
    unfold optimizeImage
    rw [h]
  · intro h
    unfold optimizeImage
    rw [h]
  · intro h
    unfold compressImageForDownload
    rw [h]
  · intro h1 h2
    unfold compressImageForDownload
    rw [h1]
    show (match comp fl (downloadOptions q) with
      | .error _ => Except.ok dataUrl
      | .ok compressedFile =>
          match getUrl compressedFile with
          | .error _ => Except.ok dataUrl
          | .ok compressedDataUrl => Except.ok compressedDataUrl) = Except.ok dataUrl
    rw [h2]
  · intro h1 h2 h3
    unfold compressImageForDownload
    rw [h1]
    show (match comp fl (downloadOptions q) with
      | .error _ => Except.ok dataUrl
      | .ok compressedFile =>
          match getUrl compressedFile with
          | .error _ => Except.ok dataUrl
          | .ok compressedDataUrl => Except.ok compressedDataUrl) = Except.ok dataUrl
    rw [h2]
    show (match getUrl file with
      | .error _ => Except.ok dataUrl
      | .ok compressedDataUrl => Except.ok compressedDataUrl) = Except.ok dataUrl
    rw [h3]

/-- Concrete instantiation of `transform_fallback_behavior`: a failing
compression library leaves the uploaded file unchanged, and a compression
failure after a successful fetch returns the original data URL. -/
theorem transform_fallback_behavior_witness :
    optimizeImage (fun _ _ => .error "oom") (JSFile.mk "p.png" "PNGDATA" "image/png")
      = JSFile.mk "p.png" "PNGDATA" "image/png" ∧
    compressImageForDownload
        (fun _ _ => .ok (JSFile.mk "source.png" "PNGDATA" "image/png"))
        (fun _ _ => .error "oom") (fun f => .ok f.content)
        "data:image/png;base64,AAAA" "image/png" .low
      = .ok "data:image/png;base64,AAAA" :=
  ⟨(transform_fallback_behavior (fun _ _ => .error "oom")
      (fun _ _ => .ok (JSFile.mk "source.png" "PNGDATA" "image/png"))
      (fun f => .ok f.content) (JSFile.mk "p.png" "PNGDATA" "image/png")
      (JSFile.mk "p.png" "PNGDATA" "image/png") "" "" "oom" .low).1 rfl,
   (transform_fallback_behavior (fun _ _ => .error "oom")
      (fun _ _ => .ok (JSFile.mk "source.png" "PNGDATA" "image/png"))
      (fun f => .ok f.content) (JSFile.mk "x" "y" "z")
      (JSFile.mk "source.png" "PNGDATA" "image/png")
      "data:image/png;base64,AAAA" "image/png" "oom" .low).2.2.2.1 rfl rfl⟩

/-- Outcome of decoding the source image (`new Image()`): the `onload` event
(with the decoded dimensions) or the `onerror` event. -/
inductive ImgLoad where
  | loaded (width height : Nat)
  | loadError (ev : String)
deriving DecidableEq

/-- JS `String.prototype.indexOf`: first index of `t` in `s`, or `-1`. -/
def jsIndexOf (s t : String) : Int :=
  match listIndexOf? t.data s.data with
  | some i => (i : Int)
  | none => -1

/-- JS `String.prototype.substring(start, stop)`: both arguments clamped into
`[0, length]` and swapped if out of order. -/
def jsSubstring (s : String) (start stop : Int) : String :=
  let len := s.data.length
  let a := min (if start < 0 then 0 else min start.toNat len) (if stop < 0 then 0 else min stop.toNat len)
  let b := max (if start < 0 then 0 else min start.toNat len) (if stop < 0 then 0 else min stop.toNat len)
  String.mk ((s.data.drop a).take (b - a))

/-- `dataUrl.substring(dataUrl.indexOf(":") + 1, dataUrl.indexOf(";"))`
(`imageOptimizer.ts` line 110): the MIME type handed to `canvas.toDataURL`. -/
def canvasMime (dataUrl : String) : String :=
  jsSubstring dataUrl (jsIndexOf dataUrl ":" + 1) (jsIndexOf dataUrl ";")

/-- `applyVisualAdjustments` (`imageOptimizer.ts` lines 81-116): resolve with
the input unchanged when both percentages are 100, before any decoding;
otherwise decode the image (rejecting on `onerror` with the templated
message), reject if no 2d context is available, else draw through the
brightness/contrast filter and resolve with the canvas data URL.  The canvas
draw + `toDataURL` pixel operation is the `render` oracle, applied to the
decoded dimensions, the two percentages and the extracted MIME type. -/
def applyVisualAdjustments (load : ImgLoad) (ctxAvailable : Bool)
    (render : Nat → Nat → Int → Int → String → String)
    (dataUrl : String) (brightness contrast : Int) : Except String String :=
  if brightness = 100 ∧ contrast = 100 then .ok dataUrl
  else
    match load with
    | .loadError ev => .error ("Failed to load image for adjustments: " ++ ev)
    | .loaded w h =>
        if ctxAvailable then .ok (render w h brightness contrast (canvasMime dataUrl))
        else .error "Could not get canvas context"

/-- Claim C9: with brightness and contrast both 100, `applyVisualAdjustments`
resolves with the input data URL unchanged, independent of the decode, the
context and the pixel filter (none of which run); and on the adjustment path
(either percentage not 100) an undecodable source makes it reject with the
templated load-failure error. -/
theorem visual_adjustments_identity_and_error (load : ImgLoad) (ctxAvailable : Bool)
    (render : Nat → Nat → Int → Int → String → String)
    (dataUrl ev : String) (brightness contrast : Int)
    (hadj : ¬(brightness = 100 ∧ contrast = 100)) :
    applyVisualAdjustments load ctxAvailable render dataUrl 100 100 = .ok dataUrl ∧
    applyVisualAdjustments (.loadError ev) ctxAvailable render dataUrl brightness contrast
      = .error ("Failed to load image for adjustments: " ++ ev) := by
  constructor
  · unfold applyVisualAdjustments
    rw [if_pos ⟨rfl, rfl⟩]
  · unfold applyVisualAdjustments
    rw [if_neg hadj]

/-- Concrete instantiation of `visual_adjustments_identity_and_error` at
brightness 120 / contrast 100. -/
theorem visual_adjustments_identity_and_error_witness :
    applyVisualAdjustments (.loaded 8 8) true (fun _ _ _ _ _ => "data:image/png;base64,QQQQ")
        "data:image/png;base64,AAAA" 100 100 = .ok "data:image/png;base64,AAAA" ∧
    applyVisualAdjustments (.loadError "ev") true (fun _ _ _ _ _ => "data:image/png;base64,QQQQ")
        "data:image/png;base64,AAAA" 120 100
      = .error "Failed to load image for adjustments: ev" :=
  ⟨(visual_adjustments_identity_and_error (.loaded 8 8) true
      (fun _ _ _ _ _ => "data:image/png;base64,QQQQ") "data:image/png;base64,AAAA"
      "ev" 120 100 (by decide)).1,
   (visual_adjustments_identity_and_error (.loadError "ev") true
      (fun _ _ _ _ _ => "data:image/png;base64,QQQQ") "data:image/png;base64,AAAA"
      "ev" 120 100 (by decide)).2⟩

end NanoEdit
